import Mathlib

/-!
Shallow embedding of the Light Detection Alert System core
(`src/main.ino`): sensor polling loop, debounced alert state machine,
calibration, serial command handling and status reporting.

Machine integers are modelled as `Int` (C `int`/`long`) and `Nat`
(C `unsigned long`, reduced mod 2^32 where unsigned subtraction occurs).
C truncating integer division is `Int.tdiv`.
-/

/-- Modulus of the 32-bit `unsigned long` used by `millis()`. -/
def UMAX : Nat := 4294967296

/-- `DEBOUNCE_TIME = 60000` ms: cooldown between alerts (main.ino line 42). -/
def DEBOUNCE_TIME : Nat := 60000

/-- Unsigned 32-bit subtraction `now - last` as computed by
`millis() - lastAlertTime` in the sketch (both operands below `UMAX`). -/
def elapsedSince (now last : Nat) : Nat := (now + UMAX - last) % UMAX

/-- The mutable program state of the sketch: the globals declared at
main.ino lines 38-50. The 10-slot C array `calibrationReadings[10]`
is a length-10 list written through `List.set`. -/
structure SysState where
  sensorValue : Int
  threshold : Int
  alertActive : Bool
  lastAlertTime : Nat
  wifiConnected : Bool
  calibrationMode : Bool
  calibrationReadings : List Int
  calibrationIndex : Nat
deriving DecidableEq, Repr

/-- Initial values of the globals (main.ino lines 38-50): threshold 2000,
alert inactive, lastAlertTime 0, not calibrating. -/
def initialState : SysState :=
  { sensorValue := 0
    threshold := 2000
    alertActive := false
    lastAlertTime := 0
    wifiConnected := false
    calibrationMode := false
    calibrationReadings := List.replicate 10 0
    calibrationIndex := 0 }

/-- Snapshot printed by `printStatus` (main.ino lines 335-354): sensor
reading, threshold, alert flag, connectivity, whole seconds since the
last alert. -/
structure StatusSnapshot where
  sample : Int
  threshold : Int
  alertActive : Bool
  connected : Bool
  secsSinceAlert : Nat
deriving DecidableEq, Repr

/-- `printStatus()` (main.ino lines 335-354): reads the globals and the
clock, prints them, mutates nothing. Returns the (unchanged) state and
the reported snapshot; `now` is the `millis()` reading at the call. -/
def printStatus (s : SysState) (now : Nat) : SysState × StatusSnapshot :=
  (s, { sample := s.sensorValue
        threshold := s.threshold
        alertActive := s.alertActive
        connected := s.wifiConnected
        secsSinceAlert := elapsedSince now s.lastAlertTime / 1000 })

/-- The drain loop `while (Serial.available()) Serial.read();` at
main.ino lines 330-332: consumes the buffered bytes one by one. -/
def drainSerial : List Char → List Char
  | [] => []
  | _ :: rest => drainSerial rest

/-- `setThresholdManual()` (main.ino lines 310-333). The blocking
`Serial.parseInt()` read is the external command-channel collaborator;
its result is the argument `newThreshold`, and `buf` is the input still
buffered after the parse. Returns (state, error-reported flag, remaining
buffer after the unconditional drain). -/
def setThresholdManual (s : SysState) (newThreshold : Int) (buf : List Char) :
    SysState × Bool × List Char :=
  if 0 ≤ newThreshold ∧ newThreshold ≤ 4095 then
    ({ s with threshold := newThreshold, alertActive := false }, false, drainSerial buf)
  else
    (s, true, drainSerial buf)

/-- `startCalibration()` (main.ino lines 263-269): enters calibration
mode and resets the reading index to 0. -/
def startCalibration (s : SysState) : SysState :=
  { s with calibrationMode := true, calibrationIndex := 0 }

/-- `handleCalibration()` (main.ino lines 271-308). While fewer than 10
readings are stored it records one fresh analog reading `csample` and
advances the index; once the index reaches 10 it commits
`threshold = sum / 10` (C `long` truncating division), leaves
calibration mode and clears the alert flag. -/
def handleCalibration (s : SysState) (csample : Int) : SysState :=
  if s.calibrationIndex < 10 then
    { s with
        calibrationReadings := s.calibrationReadings.set s.calibrationIndex csample
        calibrationIndex := s.calibrationIndex + 1 }
  else
    { s with
        threshold := Int.tdiv s.calibrationReadings.sum 10
        calibrationMode := false
        alertActive := false }

/-- Iterated `handleCalibration` over a stream of analog readings: one
polling cycle per reading while calibration mode is active. -/
def runCalibration (s : SysState) (samples : List Int) : SysState :=
  samples.foldl handleCalibration s

/-- A serial command byte as dispatched by `handleSerialCommand`
(main.ino lines 236-261). The `t` case carries the integer produced by
the external `Serial.parseInt()` and the input bytes still buffered. -/
inductive Cmd where
  | calibrate
  | manual (v : Int) (buf : List Char)
  | status
  | newlineChar
  | unknown
deriving DecidableEq

/-- Operator-visible result of one command dispatch: whether an error
message was printed and the status snapshot, if one was requested. -/
structure CmdOut where
  errorReported : Bool
  snapshot : Option StatusSnapshot
deriving DecidableEq

/-- `handleSerialCommand(cmd)` (main.ino lines 236-261): dispatch on the
command byte; `now` is the `millis()` reading used by `printStatus`. -/
def handleSerialCommand (s : SysState) (c : Cmd) (now : Nat) : SysState × CmdOut :=
  match c with
  | .calibrate => (startCalibration s, { errorReported := false, snapshot := none })
  | .manual v buf =>
      let r := setThresholdManual s v buf
      (r.1, { errorReported := r.2.1, snapshot := none })
  | .status =>
      let r := printStatus s now
      (r.1, { errorReported := false, snapshot := some r.2 })
  | .newlineChar => (s, { errorReported := false, snapshot := none })
  | .unknown => (s, { errorReported := true, snapshot := none })

/-- `sendDiscordNotification()` (main.ino lines 160-185): posts once and
logs success iff the transport status code is positive; the return value
of the POST is otherwise ignored. -/
def sendDiscordNotification (status : Int) : Bool :=
  if 0 < status then true else false

/-- `triggerAlert()` (main.ino lines 145-158): when WiFi is connected it
performs exactly one notification POST (whose transport result is
`status`); otherwise it only logs. Returns (number of POST attempts,
success-log flag of the attempt if any). State is untouched. -/
def triggerAlert (s : SysState) (status : Int) : Nat × Option Bool :=
  if s.wifiConnected then (1, some (sendDiscordNotification status)) else (0, none)

/-- Observable side effects of one polling cycle. -/
structure LoopOut where
  alerted : Bool
  sendAttempts : Nat
  sendLog : Option Bool
  cmdError : Bool
  snapshot : Option StatusSnapshot
deriving DecidableEq

/-- The command-polling phase of `loop()` (main.ino lines 90-93):
dispatches one buffered command byte, if any. -/
def commandPhase (s : SysState) (cmd : Option Cmd) (now : Nat) : SysState × CmdOut :=
  match cmd with
  | some k => handleSerialCommand s k now
  | none => (s, { errorReported := false, snapshot := none })

/-- The tail of `loop()` after command handling (main.ino lines 95-117):
the calibration branch early-returns; otherwise the debounced alert
evaluation of lines 101-112 runs. `csample` is the fresh analog reading
a calibration cycle takes, `now` the `millis()` reading, `status` the
transport result should a POST happen. -/
def evalPhase (s : SysState) (csample : Int) (now : Nat) (status : Int) :
    SysState × Bool × Nat × Option Bool :=
  if s.calibrationMode then
    (handleCalibration s csample, false, 0, none)
  else if s.sensorValue < s.threshold ∧ s.alertActive = false then
    if elapsedSince now s.lastAlertTime > DEBOUNCE_TIME then
      let t := triggerAlert s status
      ({ s with alertActive := true, lastAlertTime := now }, true, t.1, t.2)
    else
      (s, false, 0, none)
  else if s.threshold ≤ s.sensorValue then
    ({ s with alertActive := false }, false, 0, none)
  else
    (s, false, 0, none)

/-- One full iteration of `loop()` (main.ino lines 85-118): read the
sensor into `sensorValue`, handle at most one pending command byte, then
either run one calibration step or the debounced alert evaluation. -/
def loopStep (s0 : SysState) (sample : Int) (cmd : Option Cmd) (csample : Int)
    (now : Nat) (status : Int) : SysState × LoopOut :=
  let c := commandPhase { s0 with sensorValue := sample } cmd now
  let e := evalPhase c.1 csample now status
  (e.1, { alerted := e.2.1
          sendAttempts := e.2.2.1
          sendLog := e.2.2.2
          cmdError := c.2.errorReported
          snapshot := c.2.snapshot })

example : Int.tdiv 5500 10 = 550 := by decide

/-! ## Helper lemmas -/

theorem elapsedSince_eq_sub {now last : Nat} (hle : last ≤ now) (hnow : now < UMAX) :
    elapsedSince now last = now - last := by
  unfold elapsedSince UMAX
  unfold UMAX at hnow
  omega

theorem drainSerial_eq_nil (buf : List Char) : drainSerial buf = [] := by
  induction buf with
  | nil => rfl
  | cons a rest ih => simpa [drainSerial] using ih

/-! ## C1 -/

/-- C1: outside calibration mode, a polling cycle with no pending command
implements the spec's alert transition table: from Normal the state
becomes Active with the notification side effect exactly when the sample
is strictly below the threshold and the time since the last alert
strictly exceeds the cooldown; a below-threshold sample within the
cooldown leaves the state Normal with no side effect; a sample at or
above the threshold yields Normal with no side effect; from Active a
below-threshold sample keeps Active with no side effect. -/
theorem alert_transition_table (s : SysState) (sample csample : Int)
    (now : Nat) (status : Int)
    (hcal : s.calibrationMode = false)
    (hle : s.lastAlertTime ≤ now) (hnow : now < UMAX) :
    (s.alertActive = false → sample < s.threshold →
      now - s.lastAlertTime > DEBOUNCE_TIME →
      (loopStep s sample none csample now status).1.alertActive = true ∧
      (loopStep s sample none csample now status).2.alerted = true) ∧
    (s.alertActive = false → sample < s.threshold →
      ¬(now - s.lastAlertTime > DEBOUNCE_TIME) →
      (loopStep s sample none csample now status).1.alertActive = false ∧
      (loopStep s sample none csample now status).2.alerted = false) ∧
    (s.threshold ≤ sample →
      (loopStep s sample none csample now status).1.alertActive = false ∧
      (loopStep s sample none csample now status).2.alerted = false) ∧
    (s.alertActive = true → sample < s.threshold →
      (loopStep s sample none csample now status).1.alertActive = true ∧
      (loopStep s sample none csample now status).2.alerted = false) := by
  have he : elapsedSince now s.lastAlertTime = now - s.lastAlertTime :=
    elapsedSince_eq_sub hle hnow
  refine ⟨?_, ?_, ?_, ?_⟩
  · intro ha hs ht
    simp [loopStep, commandPhase, evalPhase, hcal, he, ha, hs, ht, triggerAlert]
  · intro ha hs ht
    simp [loopStep, commandPhase, evalPhase, hcal, he, ha, hs, ht]
  · intro hs
    have hns : ¬ (sample < s.threshold) := not_lt.mpr hs
    simp [loopStep, commandPhase, evalPhase, hcal, he, hs, hns]
  · intro ha hs
    simp [loopStep, commandPhase, evalPhase, hcal, he, ha, hs, not_le.mpr hs]

/-- Witness for C1 at a concrete state and inputs. -/
theorem alert_transition_table_witness :
    (loopStep initialState 1500 none 0 70000 204).1.alertActive = true ∧
    (loopStep initialState 1500 none 0 70000 204).2.alerted = true :=
  (alert_transition_table initialState 1500 0 70000 204 rfl (by decide)
    (by decide)).1 rfl (by decide) (by decide)

/-! ## Characterizations of a command-free polling cycle -/

theorem loopStep_none_fire (s : SysState) (sample cs : Int) (now : Nat) (status : Int)
    (hcal : s.calibrationMode = false) (hs : sample < s.threshold)
    (ha : s.alertActive = false)
    (ht : elapsedSince now s.lastAlertTime > DEBOUNCE_TIME) :
    loopStep s sample none cs now status =
      ({ s with sensorValue := sample, alertActive := true, lastAlertTime := now },
       { alerted := true
         sendAttempts := (triggerAlert { s with sensorValue := sample } status).1
         sendLog := (triggerAlert { s with sensorValue := sample } status).2
         cmdError := false
         snapshot := none }) := by
  simp [loopStep, commandPhase, evalPhase, hcal, hs, ha, ht]

theorem loopStep_none_suppress (s : SysState) (sample cs : Int) (now : Nat) (status : Int)
    (hcal : s.calibrationMode = false) (hs : sample < s.threshold)
    (ha : s.alertActive = false)
    (ht : ¬ elapsedSince now s.lastAlertTime > DEBOUNCE_TIME) :
    loopStep s sample none cs now status =
      ({ s with sensorValue := sample },
       { alerted := false, sendAttempts := 0, sendLog := none
         cmdError := false, snapshot := none }) := by
  simp [loopStep, commandPhase, evalPhase, hcal, hs, ha, ht]

theorem loopStep_none_recover (s : SysState) (sample cs : Int) (now : Nat) (status : Int)
    (hcal : s.calibrationMode = false) (hs : s.threshold ≤ sample) :
    loopStep s sample none cs now status =
      ({ s with sensorValue := sample, alertActive := false },
       { alerted := false, sendAttempts := 0, sendLog := none
         cmdError := false, snapshot := none }) := by
  simp [loopStep, commandPhase, evalPhase, hcal, hs, not_lt.mpr hs]

theorem loopStep_none_below_active (s : SysState) (sample cs : Int) (now : Nat)
    (status : Int)
    (hcal : s.calibrationMode = false) (hs : sample < s.threshold)
    (ha : s.alertActive = true) :
    loopStep s sample none cs now status =
      ({ s with sensorValue := sample },
       { alerted := false, sendAttempts := 0, sendLog := none
         cmdError := false, snapshot := none }) := by
  simp [loopStep, commandPhase, evalPhase, hcal, hs, ha, not_le.mpr hs]

/-- Initial state once WiFi association has succeeded in `setup()`. -/
def initConnected : SysState := { initialState with wifiConnected := true }

/-! ## C2 -/

/-- C2 counterexample: from the initial state (threshold 2000, alert
inactive, lastAlertTime 0) the cycle at t = 100 ms with sample 1500 does
NOT behave as claimed: since `millis() - lastAlertTime = 100 ≤ 60000`,
the debounce guard suppresses the alert. -/
theorem first_cycle_alert_refuted :
    ¬ ((loopStep initConnected 1500 none 0 100 204).2.alerted = true ∧
       (loopStep initConnected 1500 none 0 100 204).1.alertActive = true ∧
       (loopStep initConnected 1500 none 0 100 204).1.lastAlertTime = 100) := by
  decide

/-- C2 amended: from the initial state the cycle at t = 100 ms with
sample 1500 is suppressed by the cooldown measured from the initial
lastAlertTime = 0 (no notification, state stays Normal, lastAlertTime
stays 0); the same cycle run at any time strictly beyond the 60000 ms
cooldown does emit the notification, sets the state Active and sets
lastAlertTime to that time. -/
theorem first_alert_only_after_cooldown (now : Nat)
    (h1 : DEBOUNCE_TIME < now) (h2 : now < UMAX) :
    ((loopStep initConnected 1500 none 0 100 204).1.alertActive = false ∧
     (loopStep initConnected 1500 none 0 100 204).1.lastAlertTime = 0 ∧
     (loopStep initConnected 1500 none 0 100 204).2.alerted = false) ∧
    ((loopStep initConnected 1500 none 0 now 204).1.alertActive = true ∧
     (loopStep initConnected 1500 none 0 now 204).1.lastAlertTime = now ∧
     (loopStep initConnected 1500 none 0 now 204).2.alerted = true ∧
     (loopStep initConnected 1500 none 0 now 204).2.sendAttempts = 1) := by
  refine ⟨by decide, ?_⟩
  have ht : elapsedSince now initConnected.lastAlertTime > DEBOUNCE_TIME := by
    have : elapsedSince now 0 = now :=
      by simpa using elapsedSince_eq_sub (Nat.zero_le now) h2
    simpa [initConnected, initialState, this] using h1
  rw [loopStep_none_fire initConnected 1500 0 now 204 rfl (by decide) rfl ht]
  simp [triggerAlert, initConnected, initialState]

/-- Witness for the amended C2 theorem at t = 60001 ms. -/
theorem first_alert_only_after_cooldown_witness :
    (loopStep initConnected 1500 none 0 60001 204).1.alertActive = true ∧
    (loopStep initConnected 1500 none 0 60001 204).1.lastAlertTime = 60001 ∧
    (loopStep initConnected 1500 none 0 60001 204).2.alerted = true :=
  let h := first_alert_only_after_cooldown 60001 (by decide) (by decide)
  ⟨h.2.1, h.2.2.1, h.2.2.2.1⟩

/-! ## C3 -/

/-- C3: in a run of three command-free cycles — a first dip below the
threshold that fires the alert at time t1, a recovery at or above the
threshold, then a second dip at time t2 with t2 - t1 < COOLDOWN — only
the first dip produces the notification side effect; the second dip is
suppressed even though a recovery happened in between, and the alert
state stays Normal on it. -/
theorem debounce_suppresses_second_dip
    (s : SysState) (a b c cs : Int) (t1 tr t2 : Nat) (st1 st2 st3 : Int)
    (hcal : s.calibrationMode = false) (ha : s.alertActive = false)
    (hle : s.lastAlertTime ≤ t1) (ht1 : t1 < UMAX)
    (h12 : t1 ≤ t2) (ht2 : t2 < UMAX)
    (hcool1 : t1 - s.lastAlertTime > DEBOUNCE_TIME)
    (hdip1 : a < s.threshold) (hrec : s.threshold ≤ b) (hdip2 : c < s.threshold)
    (hclose : t2 - t1 < DEBOUNCE_TIME) :
    (loopStep s a none cs t1 st1).2.alerted = true ∧
    ((loopStep (loopStep s a none cs t1 st1).1 b none cs tr st2).2.alerted = false) ∧
    ((loopStep
        (loopStep (loopStep s a none cs t1 st1).1 b none cs tr st2).1
        c none cs t2 st3).2.alerted = false) ∧
    ((loopStep
        (loopStep (loopStep s a none cs t1 st1).1 b none cs tr st2).1
        c none cs t2 st3).1.alertActive = false) := by
  have e1 : elapsedSince t1 s.lastAlertTime > DEBOUNCE_TIME := by
    rw [elapsedSince_eq_sub hle ht1]; exact hcool1
  rw [loopStep_none_fire s a cs t1 st1 hcal hdip1 ha e1]
  rw [loopStep_none_recover _ b cs tr st2 (by simp [hcal]) (by simpa using hrec)]
  have e3 : ¬ elapsedSince t2 t1 > DEBOUNCE_TIME := by
    rw [elapsedSince_eq_sub h12 ht2]; omega
  rw [loopStep_none_suppress _ c cs t2 st3 (by simp [hcal]) (by simpa using hdip2)
    (by simp) (by simpa using e3)]
  simp

/-- Witness for C3: threshold 2000, dips 1500 and 1000 at t = 61000 and
t = 62000 ms with a recovery to 2500 in between. -/
theorem debounce_suppresses_second_dip_witness :
    (loopStep initConnected 1500 none 0 61000 204).2.alerted = true ∧
    ((loopStep (loopStep initConnected 1500 none 0 61000 204).1
        2500 none 0 61500 204).2.alerted = false) ∧
    ((loopStep
        (loopStep (loopStep initConnected 1500 none 0 61000 204).1
          2500 none 0 61500 204).1
        1000 none 0 62000 204).2.alerted = false) ∧
    ((loopStep
        (loopStep (loopStep initConnected 1500 none 0 61000 204).1
          2500 none 0 61500 204).1
        1000 none 0 62000 204).1.alertActive = false) :=
  debounce_suppresses_second_dip initConnected 1500 2500 1000 0 61000 61500 62000
    204 204 204 rfl rfl (by decide) (by decide) (by decide) (by decide) (by decide)
    (by decide) (by decide) (by decide) (by decide)

/-! ## C4 -/

/-- C4: a calibration session that collects the ten samples
100, 200, ..., 1000 and then commits sets the threshold to 550 (the
truncated integer mean), leaves calibration mode, and resets the alert
state to Normal — both when the alert was previously active and when it
was not. -/
theorem calibration_commit_mean :
    ((handleCalibration (runCalibration
        { initialState with alertActive := true, calibrationMode := true }
        [100, 200, 300, 400, 500, 600, 700, 800, 900, 1000]) 0).threshold = 550 ∧
     (handleCalibration (runCalibration
        { initialState with alertActive := true, calibrationMode := true }
        [100, 200, 300, 400, 500, 600, 700, 800, 900, 1000]) 0).calibrationMode = false ∧
     (handleCalibration (runCalibration
        { initialState with alertActive := true, calibrationMode := true }
        [100, 200, 300, 400, 500, 600, 700, 800, 900, 1000]) 0).alertActive = false) ∧
    ((handleCalibration (runCalibration
        { initialState with alertActive := false, calibrationMode := true }
        [100, 200, 300, 400, 500, 600, 700, 800, 900, 1000]) 0).threshold = 550 ∧
     (handleCalibration (runCalibration
        { initialState with alertActive := false, calibrationMode := true }
        [100, 200, 300, 400, 500, 600, 700, 800, 900, 1000]) 0).calibrationMode = false ∧
     (handleCalibration (runCalibration
        { initialState with alertActive := false, calibrationMode := true }
        [100, 200, 300, 400, 500, 600, 700, 800, 900, 1000]) 0).alertActive = false) := by
  decide

/-! ## C5 -/

/-- C5: the manual threshold command accepts exactly the values in
[0, 4095]: an in-range value becomes the new threshold and resets the
alert state to Normal with no error; an out-of-range value leaves the
whole state unchanged and reports an error; in both cases the remaining
buffered input is drained. -/
theorem manual_threshold_spec (s : SysState) (v : Int) (buf : List Char) :
    (0 ≤ v ∧ v ≤ 4095 →
      (setThresholdManual s v buf).1 = { s with threshold := v, alertActive := false } ∧
      (setThresholdManual s v buf).2.1 = false) ∧
    (¬(0 ≤ v ∧ v ≤ 4095) →
      (setThresholdManual s v buf).1 = s ∧
      (setThresholdManual s v buf).2.1 = true) ∧
    (setThresholdManual s v buf).2.2 = [] := by
  refine ⟨?_, ?_, ?_⟩
  · intro h; simp [setThresholdManual, h]
  · intro h; simp [setThresholdManual, h]
  · by_cases h : 0 ≤ v ∧ v ≤ 4095 <;>
      simp [setThresholdManual, h, drainSerial_eq_nil]

/-- Witness for C5: the spec's own examples — entering 3000 sets the
threshold and clears the alert; entering 5000 is rejected. -/
theorem manual_threshold_spec_witness :
    ((setThresholdManual initConnected 3000 ['\n']).1 =
      { initConnected with threshold := 3000, alertActive := false } ∧
     (setThresholdManual initConnected 3000 ['\n']).2.1 = false) ∧
    ((setThresholdManual initConnected 5000 ['\n']).1 = initConnected ∧
     (setThresholdManual initConnected 5000 ['\n']).2.1 = true) :=
  ⟨(manual_threshold_spec initConnected 3000 ['\n']).1 (by decide),
   (manual_threshold_spec initConnected 5000 ['\n']).2.1 (by decide)⟩

/-! ## C6 -/

/-- C6 counterexample, reached by a concrete run from the initial state:
the alert fires at t = 70000 (sample 1500), then a calibration command
arrives while the next sample is 3000 ≥ threshold 2000. The calibration
branch early-returns before the alert evaluation, so after that cycle
the alert state is still Active although the most recent sample is at or
above the threshold — the claimed every-cycle invariant fails. -/
theorem alert_invariant_refuted :
    ((loopStep (loopStep initConnected 1500 none 0 70000 204).1
        3000 (some .calibrate) 3000 70500 204).1.alertActive = true) ∧
    ((loopStep (loopStep initConnected 1500 none 0 70000 204).1
        3000 (some .calibrate) 3000 70500 204).1.threshold ≤
     (loopStep (loopStep initConnected 1500 none 0 70000 204).1
        3000 (some .calibrate) 3000 70500 204).1.sensorValue) := by
  decide

/-- Post-state invariant of the evaluation phase: whenever the phase
leaves the system outside calibration mode, the alert flag can be set
only while the current sample is strictly below the threshold, and a
sample at or above the threshold forces the flag off. -/
theorem evalPhase_post_inv (s : SysState) (cs : Int) (now : Nat) (status : Int)
    (hpost : (evalPhase s cs now status).1.calibrationMode = false) :
    ((evalPhase s cs now status).1.alertActive = true →
      (evalPhase s cs now status).1.sensorValue <
        (evalPhase s cs now status).1.threshold) ∧
    ((evalPhase s cs now status).1.threshold ≤
        (evalPhase s cs now status).1.sensorValue →
      (evalPhase s cs now status).1.alertActive = false) := by
  by_cases hc : s.calibrationMode = true
  · simp only [evalPhase, hc, if_true] at hpost ⊢
    unfold handleCalibration at hpost ⊢
    by_cases hi : s.calibrationIndex < 10
    · simp [hi, hc] at hpost
    · simp [hi]
  · have hc' : s.calibrationMode = false := by simpa using hc
    simp only [evalPhase, hc', Bool.false_eq_true, if_false] at hpost ⊢
    split_ifs with h1 h2 h3
    · exact ⟨fun _ => by simpa using h1.1, fun hge => absurd h1.1 (not_lt.mpr (by simpa using hge))⟩
    · exact ⟨fun _ => by simpa using h1.1, fun hge => absurd h1.1 (not_lt.mpr (by simpa using hge))⟩
    · exact ⟨fun hac => by simp at hac, fun _ => by simp⟩
    · have hlt : s.sensorValue < s.threshold := lt_of_not_le h3
      exact ⟨fun _ => hlt, fun hge => absurd hlt (not_lt.mpr hge)⟩

/-- C6 amended: the invariant holds for every polling cycle that ends
outside calibration mode (during calibration-collection cycles the loop
early-returns before the alert evaluation, so the flag can go stale
there): after such a cycle the alert state is Active only if the most
recent sample is strictly below the threshold, and a sample at or above
the threshold leaves the state Normal in that same cycle (recovery is
never debounced). -/
theorem alert_active_only_below (s : SysState) (sample cs : Int)
    (cmd : Option Cmd) (now : Nat) (status : Int)
    (hpost : (loopStep s sample cmd cs now status).1.calibrationMode = false) :
    ((loopStep s sample cmd cs now status).1.alertActive = true →
      (loopStep s sample cmd cs now status).1.sensorValue <
        (loopStep s sample cmd cs now status).1.threshold) ∧
    ((loopStep s sample cmd cs now status).1.threshold ≤
        (loopStep s sample cmd cs now status).1.sensorValue →
      (loopStep s sample cmd cs now status).1.alertActive = false) := by
  have hp : (evalPhase (commandPhase { s with sensorValue := sample } cmd now).1
      cs now status).1.calibrationMode = false := by
    simpa [loopStep] using hpost
  have h := evalPhase_post_inv (commandPhase { s with sensorValue := sample } cmd now).1
    cs now status hp
  simpa [loopStep] using h

/-- Witness for the amended C6 theorem: a recovery cycle at sample 2500
from an Active state outside calibration. -/
theorem alert_active_only_below_witness :
    ((loopStep { initConnected with alertActive := true, sensorValue := 1500 }
        2500 none 0 70500 204).1.threshold ≤
      (loopStep { initConnected with alertActive := true, sensorValue := 1500 }
        2500 none 0 70500 204).1.sensorValue) ∧
    (loopStep { initConnected with alertActive := true, sensorValue := 1500 }
        2500 none 0 70500 204).1.alertActive = false :=
  ⟨by decide,
   (alert_active_only_below { initConnected with alertActive := true, sensorValue := 1500 }
      2500 0 none 70500 204 (by decide)).2 (by decide)⟩

/-! ## C7 -/

/-- C7: when an alert fires while WiFi is connected and the transport
reports failure (non-positive status code), the alert still commits
exactly as on success: the state becomes Active with lastAlertTime set
to the current time and is identical to the state produced by a
successful send (status 204); exactly one send is attempted (no retry),
and the failure is only reported (failure log entry). -/
theorem alert_commits_on_send_failure (s : SysState) (sample cs : Int)
    (now : Nat) (status : Int)
    (hcal : s.calibrationMode = false) (ha : s.alertActive = false)
    (hw : s.wifiConnected = true) (hs : sample < s.threshold)
    (hle : s.lastAlertTime ≤ now) (hnow : now < UMAX)
    (hcool : now - s.lastAlertTime > DEBOUNCE_TIME)
    (hfail : status ≤ 0) :
    (loopStep s sample none cs now status).1.alertActive = true ∧
    (loopStep s sample none cs now status).1.lastAlertTime = now ∧
    (loopStep s sample none cs now status).2.sendAttempts = 1 ∧
    (loopStep s sample none cs now status).2.sendLog = some false ∧
    (loopStep s sample none cs now status).1 =
      (loopStep s sample none cs now 204).1 := by
  have ht : elapsedSince now s.lastAlertTime > DEBOUNCE_TIME := by
    rw [elapsedSince_eq_sub hle hnow]; exact hcool
  rw [loopStep_none_fire s sample cs now status hcal hs ha ht,
      loopStep_none_fire s sample cs now 204 hcal hs ha ht]
  simp [triggerAlert, sendDiscordNotification, hw, not_lt.mpr hfail]

/-- Witness for C7: a failing send (status -1) at t = 70000 ms from the
connected initial state. -/
theorem alert_commits_on_send_failure_witness :
    (loopStep initConnected 1500 none 0 70000 (-1)).1.alertActive = true ∧
    (loopStep initConnected 1500 none 0 70000 (-1)).1.lastAlertTime = 70000 ∧
    (loopStep initConnected 1500 none 0 70000 (-1)).2.sendAttempts = 1 ∧
    (loopStep initConnected 1500 none 0 70000 (-1)).2.sendLog = some false :=
  let h := alert_commits_on_send_failure initConnected 1500 0 70000 (-1) rfl rfl rfl
    (by decide) (by decide) (by decide) (by decide) (by decide)
  ⟨h.1, h.2.1, h.2.2.1, h.2.2.2.1⟩

/-! ## C8 -/

theorem list_sum_bounds (l : List Int) (h : ∀ x ∈ l, 0 ≤ x ∧ x ≤ 4095) :
    0 ≤ l.sum ∧ l.sum ≤ 4095 * l.length := by
  induction l with
  | nil => simp
  | cons a t ih =>
    have ha := h a (by simp)
    have ih' := ih (fun x hx => h x (by simp [hx]))
    simp only [List.sum_cons, List.length_cons]
    constructor
    · linarith [ih'.1, ha.1]
    · push_cast
      linarith [ih'.2, ha.2]

theorem tdiv_ten_bounds (a : Int) (h0 : 0 ≤ a) (h1 : a ≤ 40950) :
    0 ≤ Int.tdiv a 10 ∧ Int.tdiv a 10 ≤ 4095 := by
  obtain ⟨n, rfl⟩ := Int.eq_ofNat_of_zero_le h0
  have he : Int.tdiv (n : Int) (10 : Int) = ((n / 10 : Nat) : Int) := rfl
  rw [he]
  have hn : n ≤ 40950 := by exact_mod_cast h1
  constructor
  · exact_mod_cast Nat.zero_le _
  · exact_mod_cast Nat.div_le_of_le_mul (by omega)

/-- C8: assuming every sensor sample lies in [0, 4095], the threshold
stays in [0, 4095]: it does initially (2000), under the manual override
(which accepts only in-range values), and under a calibration commit
(truncated mean of ten in-range readings). -/
theorem threshold_range_invariant :
    (0 ≤ initialState.threshold ∧ initialState.threshold ≤ 4095) ∧
    (∀ (s : SysState) (v : Int) (buf : List Char),
      0 ≤ s.threshold → s.threshold ≤ 4095 →
      0 ≤ (setThresholdManual s v buf).1.threshold ∧
        (setThresholdManual s v buf).1.threshold ≤ 4095) ∧
    (∀ (s : SysState) (cs : Int),
      s.calibrationReadings.length = 10 →
      (∀ x ∈ s.calibrationReadings, 0 ≤ x ∧ x ≤ 4095) →
      0 ≤ cs → cs ≤ 4095 →
      0 ≤ s.threshold → s.threshold ≤ 4095 →
      0 ≤ (handleCalibration s cs).threshold ∧
        (handleCalibration s cs).threshold ≤ 4095) := by
  refine ⟨by decide, ?_, ?_⟩
  · intro s v buf h0 h1
    unfold setThresholdManual
    split_ifs with h
    · exact ⟨h.1, h.2⟩
    · exact ⟨h0, h1⟩
  · intro s cs hlen hmem _ _ h0 h1
    unfold handleCalibration
    split_ifs with hi
    · exact ⟨h0, h1⟩
    · have hb := list_sum_bounds s.calibrationReadings hmem
      rw [hlen] at hb
      refine tdiv_ten_bounds _ hb.1 ?_
      have h2 := hb.2
      norm_num at h2
      linarith

/-- Witness for C8 at concrete states: the manual override applied to
the initial state, and a calibration commit from a state with ten
in-range readings already collected. -/
theorem threshold_range_invariant_witness :
    (0 ≤ (setThresholdManual initialState 3000 []).1.threshold ∧
      (setThresholdManual initialState 3000 []).1.threshold ≤ 4095) ∧
    (0 ≤ (handleCalibration { initialState with calibrationIndex := 10 } 0).threshold ∧
      (handleCalibration { initialState with calibrationIndex := 10 } 0).threshold ≤ 4095) :=
  ⟨threshold_range_invariant.2.1 initialState 3000 [] (by decide) (by decide),
   threshold_range_invariant.2.2 { initialState with calibrationIndex := 10 } 0
     (by decide) (by decide) (by decide) (by decide) (by decide) (by decide)⟩

/-! ## C9 -/

/-- C9 counterexample: two consecutive status queries one polling period
(500 ms) apart, with no intervening change to the program state
(`printStatus` mutates nothing), report different snapshots: the
whole-seconds-since-last-alert field advances from 0 to 1 between
t = 900 ms and t = 1400 ms. -/
theorem status_idempotence_refuted :
    (printStatus initConnected 900).1 = initConnected ∧
    (printStatus initConnected 1400).1 = initConnected ∧
    (printStatus initConnected 900).2 ≠ (printStatus initConnected 1400).2 := by
  refine ⟨rfl, rfl, ?_⟩
  intro h
  have hs : (printStatus initConnected 900).2.secsSinceAlert =
      (printStatus initConnected 1400).2.secsSinceAlert := by rw [h]
  revert hs
  decide

/-- C9 amended: a status query never mutates the state, and two queries
over the same state always agree on the sample, threshold, alert-state
and connectivity fields; the full snapshots (including the seconds since
the last alert) are identical whenever the two clock readings yield the
same whole-second elapsed value — in particular whenever the clock
reading is the same. -/
theorem status_snapshot_pure (s : SysState) (t1 t2 : Nat) :
    (printStatus s t1).1 = s ∧
    ((printStatus s t1).2.sample = (printStatus s t2).2.sample ∧
     (printStatus s t1).2.threshold = (printStatus s t2).2.threshold ∧
     (printStatus s t1).2.alertActive = (printStatus s t2).2.alertActive ∧
     (printStatus s t1).2.connected = (printStatus s t2).2.connected) ∧
    (elapsedSince t1 s.lastAlertTime / 1000 = elapsedSince t2 s.lastAlertTime / 1000 →
      (printStatus s t1).2 = (printStatus s t2).2) := by
  refine ⟨rfl, ⟨by simp [printStatus], by simp [printStatus], by simp [printStatus],
    by simp [printStatus]⟩, ?_⟩
  intro h
  simp [printStatus, h]

/-- Witness for the amended C9 theorem: queries at t = 100 and t = 200 ms
fall in the same whole second, so the snapshots coincide. -/
theorem status_snapshot_pure_witness :
    (printStatus initConnected 100).2 = (printStatus initConnected 200).2 :=
  (status_snapshot_pure initConnected 100 200).2.2 (by decide)

/-! ## C10 -/

/-- While calibration mode is on and there is room below ten readings,
each collection step keeps the mode on and advances the index by one. -/
theorem runCalibration_collect (samples : List Int) :
    ∀ (s : SysState), s.calibrationMode = true →
      s.calibrationIndex + samples.length ≤ 10 →
      (runCalibration s samples).calibrationMode = true ∧
      (runCalibration s samples).calibrationIndex =
        s.calibrationIndex + samples.length := by
  induction samples with
  | nil =>
    intro s hm _
    simp [runCalibration, hm]
  | cons a t ih =>
    intro s hm hroom
    have hi : s.calibrationIndex < 10 := by
      simp only [List.length_cons] at hroom; omega
    have hstep : handleCalibration s a =
        { s with
            calibrationReadings := s.calibrationReadings.set s.calibrationIndex a
            calibrationIndex := s.calibrationIndex + 1 } := by
      simp [handleCalibration, hi]
    have hm' : (handleCalibration s a).calibrationMode = true := by
      rw [hstep]; exact hm
    have hroom' : (handleCalibration s a).calibrationIndex + t.length ≤ 10 := by
      rw [hstep]
      show s.calibrationIndex + 1 + t.length ≤ 10
      simp only [List.length_cons] at hroom
      omega
    have hrec := ih (handleCalibration s a) hm' hroom'
    refine ⟨hrec.1, ?_⟩
    have h3 : (handleCalibration s a).calibrationIndex = s.calibrationIndex + 1 := by
      rw [hstep]
    calc (runCalibration s (a :: t)).calibrationIndex
        = (handleCalibration s a).calibrationIndex + t.length := hrec.2
      _ = s.calibrationIndex + (a :: t).length := by
          rw [h3]; simp only [List.length_cons]; omega

/-- C10: a calibration command received while a session is already
collecting is not rejected and does not continue the session: it resets
the reading index to 0 while keeping calibration mode on, so the
restarted session is still collecting after any ten further readings and
commits (leaves calibration mode) only on the cycle after those ten. -/
theorem calibrate_command_restarts_session (s : SysState) (now : Nat)
    (_hm : s.calibrationMode = true) :
    (handleSerialCommand s .calibrate now).1.calibrationMode = true ∧
    (handleSerialCommand s .calibrate now).1.calibrationIndex = 0 ∧
    (∀ (samples : List Int), samples.length = 10 →
      (runCalibration (handleSerialCommand s .calibrate now).1 samples).calibrationMode
        = true ∧
      (runCalibration (handleSerialCommand s .calibrate now).1 samples).calibrationIndex
        = 10 ∧
      (handleCalibration
        (runCalibration (handleSerialCommand s .calibrate now).1 samples)
        0).calibrationMode = false) := by
  refine ⟨rfl, rfl, ?_⟩
  intro samples hlen
  have h := runCalibration_collect samples (handleSerialCommand s .calibrate now).1
    rfl (by simp [handleSerialCommand, startCalibration, hlen])
  refine ⟨h.1, ?_, ?_⟩
  · rw [h.2]; simp [handleSerialCommand, startCalibration, hlen]
  · have h10 : (runCalibration (handleSerialCommand s .calibrate now).1
        samples).calibrationIndex = 10 := by
      rw [h.2]; simp [handleSerialCommand, startCalibration, hlen]
    simp [handleCalibration, h10]

/-- Witness for C10: restarting a session already at its sixth reading
and feeding ten zero readings. -/
theorem calibrate_command_restarts_session_witness :
    (handleSerialCommand
      { initialState with calibrationMode := true, calibrationIndex := 5 }
      .calibrate 0).1.calibrationIndex = 0 ∧
    (runCalibration (handleSerialCommand
      { initialState with calibrationMode := true, calibrationIndex := 5 }
      .calibrate 0).1 [0, 0, 0, 0, 0, 0, 0, 0, 0, 0]).calibrationIndex = 10 ∧
    (handleCalibration (runCalibration (handleSerialCommand
      { initialState with calibrationMode := true, calibrationIndex := 5 }
      .calibrate 0).1 [0, 0, 0, 0, 0, 0, 0, 0, 0, 0]) 0).calibrationMode = false :=
  let h := calibrate_command_restarts_session
    { initialState with calibrationMode := true, calibrationIndex := 5 } 0 rfl
  let h10 := h.2.2 [0, 0, 0, 0, 0, 0, 0, 0, 0, 0] (by decide)
  ⟨h.2.1, h10.2.1, h10.2.2⟩
